import Mathlib

/-!
Shallow embedding of the story-sequence storyboard generator.

The repository is a React application: `App` (the workflow orchestrator,
`src/unnamed/part_000`), a Gemini client wrapper (`src/services/geminiService.ts`,
with two further variants concatenated in that file, and another variant with a
character-description cache in `src/unnamed/part_001`), the input form
(`src/unnamed/part_002`) and the results grid plus the type declarations
(`src/components/Storyboard.tsx`).

External network calls (`ai.models.generateContent`) are modelled as oracles:
the caller supplies the response the Generation Client would have produced, and
the embedded functions reproduce exactly what the TypeScript does with that
response.  JavaScript truthiness on nullable strings (`null`/`""` falsy) is
modelled by `truthyOpt` and `jsOrStr`.
-/

deriving instance DecidableEq for Except

namespace StorySequence

/-- JS truthiness of a `string | null | undefined` value: `null`/`undefined`
and the empty string are falsy. -/
def truthyOpt : Option String → Bool
  | some s => s != ""
  | none => false

/-- JS `a || b` on a nullable string `a` with string default `b`. -/
def jsOrStr : Option String → String → String
  | some s, b => if s == "" then b else s
  | none, b => b

/-- JS `String.prototype.trim()`: strip leading and trailing whitespace.
Written over the character list so that it evaluates by kernel reduction. -/
def jsTrim (s : String) : String :=
  String.mk (((s.data.dropWhile Char.isWhitespace).reverse.dropWhile Char.isWhitespace).reverse)

/-- `AppState` enum from `types.ts` (end of `src/components/Storyboard.tsx`). -/
inductive AppState where
  | INPUT
  | PLANNING
  | GENERATING
  | COMPLETE
deriving DecidableEq, Repr

/-- `StoryConfig` from `types.ts`.  `referenceImage : string | null` and the
optional `userApiKey` become `Option String`. -/
structure StoryConfig where
  storyText : String
  aspectRatio : String
  style : String
  showCaptions : Bool
  referenceImage : Option String
  userApiKey : Option String
  model : String
deriving DecidableEq, Repr

/-- A raw scene object as parsed from the model's JSON array in
`generateStoryBreakdown` (`src/services/geminiService.ts`, first variant).
`JSON.parse` gives untyped objects, so every expected field may be absent;
absent fields are `none`.  The model may also volunteer a `shotType`, which the
code overrides. -/
structure RawScene where
  id : Option Int
  description : Option String
  caption : Option String
  mood : Option String
  shotType : Option String
  videoPrompt : Option String
deriving DecidableEq, Repr

/-- `Scene` from `types.ts`, as actually produced by `generateStoryBreakdown`:
the spread `{...scene, shotType: ...}` passes the parsed (possibly absent)
fields through unchanged and always sets `shotType` to a string. -/
structure Scene where
  id : Option Int
  description : Option String
  caption : Option String
  mood : Option String
  videoPrompt : Option String
  shotType : String
deriving DecidableEq, Repr

/-- `GeneratedPanel` from `types.ts`. -/
structure GeneratedPanel where
  id : Option Int
  imageUrl : Option String
  isLoading : Bool
  error : Option String
  sceneData : Scene
deriving DecidableEq, Repr

/-- `SHOT_TYPES` from `types.ts` (end of `src/components/Storyboard.tsx`). -/
def shotTypesList : List String :=
  ["Establishing wide shot",
   "Medium shot",
   "Close-up (emotion)",
   "3/4 angle or over-the-shoulder",
   "Action mid shot",
   "Detail shot (hands / object)",
   "Dramatic angle (low or backlight)",
   "Wide environmental shot",
   "Calm closing shot"]

/-- Possible outcomes of the breakdown network call, as seen by
`generateStoryBreakdown` after `await`: the call itself threw, the response had
no text (`response.text` falsy triggers `throw new Error("No text returned from
Gemini")`), `JSON.parse` threw on the text, or parsing produced an array of
objects. -/
inductive PlanResponse where
  | thrown (msg : String)
  | noText
  | unparseable
  | parsed (scenes : List RawScene)
deriving DecidableEq, Repr

/-- Result scene built by the merge step
`scenes.map((scene, index) => ({...scene, shotType: SHOT_TYPES[index] || "Medium Shot"}))`
in `generateStoryBreakdown`: all parsed fields pass through, `shotType` is
overridden by array index into the fixed list. -/
def sceneFromRaw (index : Nat) (s : RawScene) : Scene :=
  { id := s.id
    description := s.description
    caption := s.caption
    mood := s.mood
    videoPrompt := s.videoPrompt
    shotType := jsOrStr (shotTypesList.get? index) "Medium Shot" }

/-- `const apiKey = process.env.API_KEY || process.env.GEMINI_API_KEY || "";`
(`src/services/geminiService.ts` line 5): the key of the module-level default
client `ai`. -/
def envApiKeyV1 (apiKeyEnv geminiApiKeyEnv : Option String) : String :=
  jsOrStr apiKeyEnv (jsOrStr geminiApiKeyEnv "")

/-- `const activeAi = apiKeyOverride ? new GoogleGenAI({apiKey: apiKeyOverride}) : ai;`
(first variant, line 29): the credential actually carried by the client used
for a call, given the caller override and the default client's key.  No code
path checks this key locally; an empty key still produces a client. -/
def activeKeyV1 (apiKeyOverride : Option String) (envKey : String) : String :=
  match apiKeyOverride with
  | some k => if k == "" then envKey else k
  | none => envKey

/-- `getAiClient` from the second service variant
(`src/services/geminiService.ts` lines 172-178): resolves
`(userKey || envApiKey).trim()` and throws when the resolved key is blank.
The client is represented by the key it carries. -/
def getAiClient (userKey : Option String) (envApiKey : String) : Except String String :=
  let key := jsTrim (jsOrStr userKey envApiKey)
  if key == "" then .error "Gemini API Key is missing. Please enter your key."
  else .ok key

/-- `generateStoryBreakdown` (first variant of `src/services/geminiService.ts`,
lines 22-99; textually identical in `src/unnamed/part_001` lines 84-161).
The client used for the call carries key `activeKeyV1 apiKeyOverride envKey`
(line 29); nothing inspects that key locally, so the call proceeds for any key.
Failure cases: the call threw (rethrown by the catch), `response.text` absent,
or `JSON.parse` threw.  A successfully parsed array is mapped through
`sceneFromRaw` with no validation of its length or its `id` fields. -/
def generateStoryBreakdown (storyText style : String) (apiKeyOverride : Option String)
    (envKey : String) (resp : PlanResponse) : Except String (List Scene) :=
  match resp with
  | .thrown msg => .error msg
  | .noText => .error "No text returned from Gemini"
  | .unparseable => .error "SyntaxError: Unexpected token in JSON"
  | .parsed scenes => .ok (scenes.enum.map fun p => sceneFromRaw p.1 p.2)

/-- `true` exactly on the `PlanResponse` cases where `generateStoryBreakdown`
returns normally. -/
def planRespParses : PlanResponse → Bool
  | .parsed _ => true
  | _ => false

/-- `true` on `.ok`, `false` on `.error`. -/
def planSucceeds (e : Except String (List Scene)) : Bool :=
  match e with
  | .ok _ => true
  | .error _ => false

/-- The image network call as seen by `generatePanelImage` after `await`:
either the call threw, or it returned candidate parts, each part carrying
`inlineData.data` (`none` when the part has no inline data; the code also
treats an empty data string as absent via truthiness). -/
inductive ImageResponse where
  | thrown (msg : String)
  | parts (ps : List (Option String))
deriving DecidableEq, Repr

/-- Message of the missing-reference guard in `generatePanelImage`
(`src/services/geminiService.ts` lines 108-110). -/
def refImageError : String := "Reference image is required for panel generation."

/-- The part of `generatePanelImage` after the reference-image guard: scan the
response parts for the first truthy `inlineData.data` and wrap it as a data
URL, else `throw new Error("No image data found in response")`; a thrown call
is rethrown by the catch. -/
def generatePanelImageBody (scene : Scene) (resp : ImageResponse) : Except String String :=
  match resp with
  | .thrown msg => .error msg
  | .parts ps =>
    match ps.find? truthyOpt with
    | some (some d) => .ok ("data:image/png;base64," ++ d)
    | _ => .error "No image data found in response"

/-- `generatePanelImage` (first variant of `src/services/geminiService.ts`,
lines 102-165): guard `if (!config.referenceImage) throw ...`, then the network
call and the inline-data scan.  `scene` only feeds the prompt string, which
does not influence the embedded control flow. -/
def generatePanelImage (scene : Scene) (config : StoryConfig) (resp : ImageResponse) :
    Except String String :=
  if truthyOpt config.referenceImage then generatePanelImageBody scene resp
  else .error refImageError

/-- Module-level cache `let cachedCharacterDescription: string | null = null;`
of `src/unnamed/part_001` (line 22), threaded explicitly. -/
abbrev CharacterCache := Option String

/-- Outcome of the analysis network call inside `analyzeReferenceImage`
(`src/unnamed/part_001`): either the call threw, or it returned and
`response.text` is the (possibly absent) text. -/
inductive AnalyzeResponse where
  | thrown (msg : String)
  | success (text : Option String)
deriving DecidableEq, Repr

/-- Fallback returned by `analyzeReferenceImage` when the analysis call throws. -/
def fallbackDescription : String := "Character from the reference image"

/-- `analyzeReferenceImage` (`src/unnamed/part_001` lines 25-76).  Returns the
description together with the cache after the call.  A truthy cached value
short-circuits (`if (cachedCharacterDescription) return ...`); on a thrown call
the fixed fallback is returned and the cache is left untouched; on a returned
call the description is `response.text || ""` and is cached.  The whole body
is inside try/catch, so the function never throws: totality of this definition
models that. -/
def analyzeReferenceImage (referenceImage style : String) (apiKeyOverride : Option String)
    (cache : CharacterCache) (resp : AnalyzeResponse) : String × CharacterCache :=
  if truthyOpt cache then (cache.getD "", cache)
  else
    match resp with
    | .thrown _ => (fallbackDescription, cache)
    | .success t =>
      let description := jsOrStr t ""
      (description, some description)

/-- `resetCharacterCache` (`src/unnamed/part_001` lines 79-81); exported with
the comment "call when starting a new generation" but never invoked anywhere
in the repository. -/
def resetCharacterCache (_cache : CharacterCache) : CharacterCache := none

/-- The orchestrator's React state in `App` (`src/unnamed/part_000`): the three
`useState` hooks, plus the module-level character cache of
`src/unnamed/part_001` so that cross-run cache behaviour is observable. -/
structure SystemState where
  appState : AppState
  storyConfig : Option StoryConfig
  panels : List GeneratedPanel
  cache : CharacterCache
deriving DecidableEq, Repr

/-- `initializePanels` (`src/unnamed/part_000` lines 13-21). -/
def initializePanels (scenes : List Scene) : List GeneratedPanel :=
  scenes.map fun scene =>
    { id := scene.id
      sceneData := scene
      imageUrl := none
      isLoading := true
      error := none }

/-- `const batchSize = 3;` (`src/unnamed/part_000` line 35). -/
def batchSize : Nat := 3

/-- The batch partition computed by the loop
`for (let i = 0; i < initialPanels.length; i += batchSize)` taking
`initialPanels.slice(i, i + batchSize)`: successive chunks of `batchSize = 3`
in original order, the last possibly shorter. -/
def chunksBatch : List α → List (List α)
  | [] => []
  | [a] => [[a]]
  | [a, b] => [[a, b]]
  | a :: b :: c :: rest => [a, b, c] :: chunksBatch rest

/-- The record a settled promise of a batch delivers: the `.then` branch gives
`{id, imageUrl, error: null}`, the `.catch` branch gives
`{id, imageUrl: null, error: message}` (`src/unnamed/part_000` lines 39-42).
Because every promise carries a `.catch`, `Promise.allSettled` only ever sees
fulfilled promises. -/
structure BatchResult where
  id : Option Int
  imageUrl : Option String
  error : Option String
deriving DecidableEq, Repr

/-- The settled record for one panel of a batch, from its synthesis call. -/
def panelResult (config : StoryConfig) (net : Option Int → ImageResponse)
    (p : GeneratedPanel) : BatchResult :=
  match generatePanelImage p.sceneData config (net p.id) with
  | .ok url => { id := p.id, imageUrl := some url, error := none }
  | .error msg => { id := p.id, imageUrl := none, error := some msg }

/-- `await Promise.allSettled(batch.map(...))` for one batch: each panel's
synthesis call settles to its `BatchResult`, failures isolated per panel. -/
def settleBatch (config : StoryConfig) (net : Option Int → ImageResponse)
    (batch : List GeneratedPanel) : List BatchResult :=
  batch.map (panelResult config net)

/-- The assignment `updated[idx] = {...updated[idx], imageUrl: ..., isLoading: false, error: ...}`. -/
def applyResultToPanel (p : GeneratedPanel) (r : BatchResult) : GeneratedPanel :=
  { p with imageUrl := r.imageUrl, isLoading := false, error := r.error }

/-- One iteration of the result-application loop: `findIndex(p => p.id === result.id)`
and, when found, overwrite that (first matching) entry. -/
def setFirstMatching (r : BatchResult) : List GeneratedPanel → List GeneratedPanel
  | [] => []
  | p :: rest =>
    if p.id == r.id then applyResultToPanel p r :: rest
    else p :: setFirstMatching r rest

/-- The functional updater passed to `setPanels` after a batch settles
(`src/unnamed/part_000` lines 46-57): copies the previous panel list and folds
all of the batch's results into it in one state update. -/
def applyBatchResults (results : List BatchResult) (prev : List GeneratedPanel) :
    List GeneratedPanel :=
  results.foldl (fun updated r => setFirstMatching r updated) prev

/-- One batch iteration of the generation loop: settle the batch's calls, then
apply all of its results to the current panel state at once. -/
def applyBatch (config : StoryConfig) (net : Option Int → ImageResponse)
    (cur : List GeneratedPanel) (batch : List GeneratedPanel) : List GeneratedPanel :=
  applyBatchResults (settleBatch config net batch) cur

/-- The sequence of panel states published by `setPanels`, one entry per batch,
in batch order: each entry is produced from the previous one (the next batch's
update only happens after the previous batch fully settled). -/
def traceList (config : StoryConfig) (net : Option Int → ImageResponse) :
    List (List GeneratedPanel) → List GeneratedPanel → List (List GeneratedPanel)
  | [], _ => []
  | b :: bs, cur =>
    applyBatch config net cur b :: traceList config net bs (applyBatch config net cur b)

/-- The generation phase of `handleStart` as a trace: fold the batch loop,
logging the panel state after each `setPanels` call. -/
def generationTrace (config : StoryConfig) (net : Option Int → ImageResponse)
    (initialPanels : List GeneratedPanel) : List (List GeneratedPanel) :=
  ((chunksBatch initialPanels).foldl
    (fun acc batch =>
      (applyBatch config net acc.1 batch, acc.2 ++ [applyBatch config net acc.1 batch]))
    (initialPanels, [])).2

/-- Panel state when the generation loop finishes: the last published state
(the initial panels when there was no batch). -/
def runGeneration (config : StoryConfig) (net : Option Int → ImageResponse)
    (initialPanels : List GeneratedPanel) : List GeneratedPanel :=
  (generationTrace config net initialPanels).getLastD initialPanels

/-- The terminal panel a synthesis outcome produces for an initial (loading)
panel: success sets the image and clears the error, failure clears the image
and records the message; both clear `isLoading`. -/
def panelOutcome (config : StoryConfig) (net : Option Int → ImageResponse)
    (p : GeneratedPanel) : GeneratedPanel :=
  match generatePanelImage p.sceneData config (net p.id) with
  | .ok url => { p with imageUrl := some url, isLoading := false, error := none }
  | .error msg => { p with imageUrl := none, isLoading := false, error := some msg }

/-- `handleStart` (`src/unnamed/part_000` lines 23-68).  Sets the config and
`PLANNING`; a failed breakdown is caught, surfaced via `alert`, and the state
returns to `INPUT` with panels untouched (the config, set before the `try`,
stays).  On success the nine panels are materialized all-loading, state moves
to `GENERATING`, the batch loop runs, and afterwards the state becomes
`COMPLETE` unconditionally.  `handleStart` never touches the character cache:
`resetCharacterCache` has no caller in the repository. -/
def handleStart (config : StoryConfig) (envKey : String) (resp : PlanResponse)
    (net : Option Int → ImageResponse) (st : SystemState) : SystemState :=
  let st1 : SystemState := { st with storyConfig := some config, appState := .PLANNING }
  match generateStoryBreakdown config.storyText config.style config.userApiKey envKey resp with
  | .error _ => { st1 with appState := .INPUT }
  | .ok scenes =>
    let initialPanels := initializePanels scenes
    { st1 with
        panels := runGeneration config net initialPanels
        appState := .COMPLETE }

/-- The first `setPanels` of `generateSinglePanel` (`src/unnamed/part_000`
lines 72-74): mark the target panel loading and clear its error. -/
def regenLoadingStep (id : Option Int) (panels : List GeneratedPanel) : List GeneratedPanel :=
  panels.map fun p => if p.id == id then { p with isLoading := true, error := none } else p

/-- The second `setPanels` of `generateSinglePanel` (lines 77-84): on success
set the image and stop loading (the error was already cleared); on failure stop
loading and record the message (the previous image is left in place). -/
def regenFinishStep (id : Option Int) (outcome : Except String String)
    (panels : List GeneratedPanel) : List GeneratedPanel :=
  match outcome with
  | .ok url =>
    panels.map fun p =>
      if p.id == id then { p with imageUrl := some url, isLoading := false } else p
  | .error msg =>
    panels.map fun p =>
      if p.id == id then { p with isLoading := false, error := some msg } else p

/-- `generateSinglePanel` (`src/unnamed/part_000` lines 70-86): the pair of
panel states it publishes (after the loading update, after the completion
update). -/
def generateSinglePanel (id : Option Int) (scene : Scene) (config : StoryConfig)
    (net : ImageResponse) (panels : List GeneratedPanel) :
    List GeneratedPanel × List GeneratedPanel :=
  let loading := regenLoadingStep id panels
  (loading, regenFinishStep id (generatePanelImage scene config net) loading)

/-- `handleRegenerate` (`src/unnamed/part_000` lines 88-93): look the panel up;
only when both the panel and an active configuration exist does
`generateSinglePanel` run.  Returns the list of published panel states and the
number of synthesis calls performed. -/
def handleRegenerate (panelId : Option Int) (net : ImageResponse) (st : SystemState) :
    List (List GeneratedPanel) × Nat :=
  match st.panels.find? (fun p => p.id == panelId), st.storyConfig with
  | some panel, some config =>
    let s := generateSinglePanel panelId panel.sceneData config net st.panels
    ([s.1, s.2], 1)
  | _, _ => ([], 0)

/-- `handleReset` (`src/unnamed/part_000` lines 95-99): back to `INPUT`, config
and panels discarded.  The character cache is not touched (nothing calls
`resetCharacterCache`). -/
def handleReset (st : SystemState) : SystemState :=
  { appState := .INPUT, storyConfig := none, panels := [], cache := st.cache }

/-- The tail of a stale `handleStart` still in flight when a reset happened:
the remaining batch iterations apply their results through the functional
`setPanels` updater against the current (post-reset) panel state, and the loop
epilogue runs `setAppState(AppState.COMPLETE)` unconditionally. -/
def staleHandleStartTail (config : StoryConfig) (net : Option Int → ImageResponse)
    (pendingBatches : List (List GeneratedPanel)) (st : SystemState) : SystemState :=
  { st with
      panels := pendingBatches.foldl (applyBatch config net) st.panels
      appState := .COMPLETE }

/-- The stale completion of a `generateSinglePanel` that was in flight at reset
time: its final `setPanels` updater runs against the current panel state. -/
def staleRegenerateTail (id : Option Int) (outcome : Except String String)
    (st : SystemState) : SystemState :=
  { st with panels := regenFinishStep id outcome st.panels }

/-- `handleSubmit`'s form state in `StoryInput` (`src/unnamed/part_002`). -/
structure SubmitForm where
  storyText : String
  aspectRatio : String
  style : String
  model : String
  showCaptions : Bool
  imagePreview : Option String
  userApiKey : String
deriving DecidableEq, Repr

/-- `handleSubmit` (`src/unnamed/part_002` lines 69-82): returns without
calling `onStart` when the reference image preview or the trimmed story text is
falsy; otherwise builds the `StoryConfig` handed to `handleStart`
(`userApiKey: userApiKey.trim() || undefined`). -/
def handleSubmit (f : SubmitForm) : Option StoryConfig :=
  if !truthyOpt f.imagePreview || jsTrim f.storyText == "" then none
  else
    some
      { storyText := f.storyText
        aspectRatio := f.aspectRatio
        style := f.style
        showCaptions := f.showCaptions
        referenceImage := f.imagePreview
        userApiKey := if jsTrim f.userApiKey == "" then none else some (jsTrim f.userApiKey)
        model := f.model }

section Lemmas

variable {config : StoryConfig} {net : Option Int → ImageResponse}

/-- On a nine-element list the batch loop forms exactly the three slices. -/
theorem chunksBatch_nine (l : List α) (h : l.length = 9) :
    chunksBatch l = [l.take 3, (l.drop 3).take 3, l.drop 6] := by
  match l, h with
  | [a, b, c, d, e, f, g, x, y], _ => rfl

/-- The trace-logging fold of the generation loop splits into the plain fold
and the published-state list. -/
theorem foldl_trace_eq (bs : List (List GeneratedPanel)) (cur : List GeneratedPanel)
    (log : List (List GeneratedPanel)) :
    bs.foldl
      (fun acc batch =>
        (applyBatch config net acc.1 batch, acc.2 ++ [applyBatch config net acc.1 batch]))
      (cur, log)
      = (bs.foldl (applyBatch config net) cur, log ++ traceList config net bs cur) := by
  induction bs generalizing cur log with
  | nil => simp [traceList]
  | cons b bs ih => simp [traceList, ih]

theorem generationTrace_eq (initialPanels : List GeneratedPanel) :
    generationTrace config net initialPanels
      = traceList config net (chunksBatch initialPanels) initialPanels := by
  simp [generationTrace, foldl_trace_eq]

/-- One published state per batch. -/
theorem traceList_length (bs : List (List GeneratedPanel)) (cur : List GeneratedPanel) :
    (traceList config net bs cur).length = bs.length := by
  induction bs generalizing cur with
  | nil => rfl
  | cons b bs ih => simp [traceList, ih]

/-- The last published state is the fold of all batches. -/
theorem traceList_getLastD (bs : List (List GeneratedPanel)) (cur : List GeneratedPanel) :
    (traceList config net bs cur).getLastD cur = bs.foldl (applyBatch config net) cur := by
  induction bs generalizing cur with
  | nil => rfl
  | cons b bs ih =>
    show (applyBatch config net cur b
          :: traceList config net bs (applyBatch config net cur b)).getLastD cur = _
    rw [List.getLastD_cons, ih]
    rfl

theorem runGeneration_eq_foldl (initialPanels : List GeneratedPanel) :
    runGeneration config net initialPanels
      = (chunksBatch initialPanels).foldl (applyBatch config net) initialPanels := by
  rw [runGeneration, generationTrace_eq, traceList_getLastD]

theorem panelResult_id (p : GeneratedPanel) : (panelResult config net p).id = p.id := by
  unfold panelResult
  cases generatePanelImage p.sceneData config (net p.id) <;> rfl

theorem panelOutcome_id (p : GeneratedPanel) : (panelOutcome config net p).id = p.id := by
  unfold panelOutcome
  cases generatePanelImage p.sceneData config (net p.id) <;> rfl

theorem panelOutcome_sceneData (p : GeneratedPanel) :
    (panelOutcome config net p).sceneData = p.sceneData := by
  unfold panelOutcome
  cases generatePanelImage p.sceneData config (net p.id) <;> rfl

theorem panelOutcome_isLoading (p : GeneratedPanel) :
    (panelOutcome config net p).isLoading = false := by
  unfold panelOutcome
  cases generatePanelImage p.sceneData config (net p.id) <;> rfl

theorem applyResultToPanel_panelResult (p : GeneratedPanel) :
    applyResultToPanel p (panelResult config net p) = panelOutcome config net p := by
  unfold applyResultToPanel panelResult panelOutcome
  cases generatePanelImage p.sceneData config (net p.id) <;> rfl

/-- A result whose id matches no panel in the list leaves it unchanged (in
particular every stale result on the empty post-reset list). -/
theorem setFirstMatching_of_no_match (r : BatchResult) (l : List GeneratedPanel)
    (h : ∀ p ∈ l, (p.id == r.id) = false) : setFirstMatching r l = l := by
  induction l with
  | nil => rfl
  | cons p rest ih =>
    show (if p.id == r.id then applyResultToPanel p r :: rest
          else p :: setFirstMatching r rest) = p :: rest
    rw [h p (by simp)]
    simp only [Bool.false_eq_true, if_false]
    rw [ih fun q hq => h q (by simp [hq])]

/-- Results that all miss a leading panel pass over it. -/
theorem applyBatchResults_skip (rs : List BatchResult) (q : GeneratedPanel)
    (acc : List GeneratedPanel) (h : ∀ r ∈ rs, (q.id == r.id) = false) :
    applyBatchResults rs (q :: acc) = q :: applyBatchResults rs acc := by
  induction rs generalizing acc with
  | nil => rfl
  | cons r rs ih =>
    simp only [applyBatchResults, List.foldl_cons, setFirstMatching, h r (by simp), if_false]
    exact ih (setFirstMatching r acc) fun r' hr' => h r' (by simp [hr'])

theorem applyBatchResults_append (rs1 rs2 : List BatchResult) (prev : List GeneratedPanel) :
    applyBatchResults (rs1 ++ rs2) prev = applyBatchResults rs2 (applyBatchResults rs1 prev) := by
  simp [applyBatchResults, List.foldl_append]

/-- Folding the batch loop over the chunks equals applying the settled results
of the whole panel list in order: the batches are slices of `initialPanels`,
and result application is a fold over each batch's results. -/
theorem foldl_chunks_eq (l : List GeneratedPanel) (init : List GeneratedPanel) :
    (chunksBatch l).foldl (applyBatch config net) init
      = applyBatchResults (settleBatch config net l) init := by
  induction l using chunksBatch.induct generalizing init with
  | case1 => rfl
  | case2 a => rfl
  | case3 a b => rfl
  | case4 a b c rest ih =>
    show (chunksBatch rest).foldl (applyBatch config net) (applyBatch config net init [a, b, c])
        = _
    rw [ih]
    have : settleBatch config net (a :: b :: c :: rest)
        = settleBatch config net [a, b, c] ++ settleBatch config net rest := by
      simp [settleBatch]
    rw [this, applyBatchResults_append]
    rfl

/-- With pairwise-distinct panel ids, applying the settled results of the whole
list to itself updates every panel to its own outcome. -/
theorem applyAll_nodup (l : List GeneratedPanel) (hnd : (l.map (·.id)).Nodup) :
    applyBatchResults (settleBatch config net l) l = l.map (panelOutcome config net) := by
  induction l with
  | nil => rfl
  | cons p rest ih =>
    rw [List.map_cons, List.nodup_cons] at hnd
    obtain ⟨hp, hrest⟩ := hnd
    show applyBatchResults (panelResult config net p :: settleBatch config net rest) (p :: rest)
        = _
    have step1 : setFirstMatching (panelResult config net p) (p :: rest)
        = panelOutcome config net p :: rest := by
      simp [setFirstMatching, panelResult_id, applyResultToPanel_panelResult]
    simp only [applyBatchResults, List.foldl_cons]
    rw [show (setFirstMatching (panelResult config net p) (p :: rest))
          = panelOutcome config net p :: rest from step1]
    have hmiss : ∀ r ∈ settleBatch config net rest,
        ((panelOutcome config net p).id == r.id) = false := by
      intro r hr
      obtain ⟨q, hq, rfl⟩ := List.mem_map.mp hr
      rw [panelOutcome_id, panelResult_id]
      have : p.id ≠ q.id := fun hEq => hp (hEq ▸ List.mem_map_of_mem (·.id) hq)
      exact beq_eq_false_iff_ne.mpr this
    calc (settleBatch config net rest).foldl (fun updated r => setFirstMatching r updated)
          (panelOutcome config net p :: rest)
        = applyBatchResults (settleBatch config net rest) (panelOutcome config net p :: rest) := rfl
      _ = panelOutcome config net p :: applyBatchResults (settleBatch config net rest) rest :=
          applyBatchResults_skip _ _ _ hmiss
      _ = panelOutcome config net p :: rest.map (panelOutcome config net) := by rw [ih hrest]
      _ = (p :: rest).map (panelOutcome config net) := rfl

/-- `runGeneration` under distinct ids: every panel is mapped to its own
synthesis outcome. -/
theorem runGeneration_eq_map (l : List GeneratedPanel) (hnd : (l.map (·.id)).Nodup) :
    runGeneration config net l = l.map (panelOutcome config net) := by
  rw [runGeneration_eq_foldl, foldl_chunks_eq, applyAll_nodup l hnd]

theorem initializePanels_length (scenes : List Scene) :
    (initializePanels scenes).length = scenes.length := by
  simp [initializePanels]

theorem initializePanels_ids (scenes : List Scene) :
    (initializePanels scenes).map (·.id) = scenes.map (·.id) := by
  simp [initializePanels]

end Lemmas

/-! Concrete inputs used by witnesses and counterexamples. -/

/-- A well-formed parsed scene object with position `n`, as the planner's model
would return it (its own `shotType` suggestion included). -/
def demoRaw (n : Int) : RawScene :=
  { id := some n
    description := some "desc"
    caption := some "cap"
    mood := some "mood"
    shotType := some "model shot"
    videoPrompt := some "vp" }

def demoRaws9 : List RawScene :=
  [demoRaw 1, demoRaw 2, demoRaw 3, demoRaw 4, demoRaw 5,
   demoRaw 6, demoRaw 7, demoRaw 8, demoRaw 9]

def demoScene (n : Int) (shot : String) : Scene :=
  { id := some n
    description := some "desc"
    caption := some "cap"
    mood := some "mood"
    videoPrompt := some "vp"
    shotType := shot }

/-- `generateStoryBreakdown`'s output on `demoRaws9`. -/
def demoScenes9 : List Scene :=
  [demoScene 1 "Establishing wide shot",
   demoScene 2 "Medium shot",
   demoScene 3 "Close-up (emotion)",
   demoScene 4 "3/4 angle or over-the-shoulder",
   demoScene 5 "Action mid shot",
   demoScene 6 "Detail shot (hands / object)",
   demoScene 7 "Dramatic angle (low or backlight)",
   demoScene 8 "Wide environmental shot",
   demoScene 9 "Calm closing shot"]

def demoConfig : StoryConfig :=
  { storyText := "A robot finds a flower"
    aspectRatio := "16:9"
    style := "Warm Watercolor"
    showCaptions := true
    referenceImage := some "data:image/png;base64,QUJD"
    userApiKey := none
    model := "gemini-2.5-flash" }

/-- Network behaviour where panel 5's synthesis call throws and every other
call returns an inline image: one failure inside batch 2. -/
def demoNet : Option Int → ImageResponse :=
  fun id => if id == some (5 : Int) then .thrown "boom" else .parts [some "QUJD"]

def demoState : SystemState :=
  { appState := .INPUT, storyConfig := none, panels := [], cache := none }

/-! Claim theorems. -/

/-- Claim C1: during a 9-panel run the generation loop partitions the panels
into exactly 3 batches of 3 preserving original order and covering every
panel, publishes exactly one panel-state update per batch, each update built
from the fully settled previous one (batches strictly sequential), and the
final panel state is the last of these three updates. -/
theorem c1_batch_partitioning (scenes : List Scene) (config : StoryConfig)
    (net : Option Int → ImageResponse) (h9 : scenes.length = 9) :
    let panels := initializePanels scenes
    let s1 := applyBatch config net panels (panels.take 3)
    let s2 := applyBatch config net s1 ((panels.drop 3).take 3)
    let s3 := applyBatch config net s2 (panels.drop 6)
    chunksBatch panels = [panels.take 3, (panels.drop 3).take 3, panels.drop 6] ∧
    (∀ b ∈ chunksBatch panels, b.length = 3) ∧
    (chunksBatch panels).flatten = panels ∧
    generationTrace config net panels = [s1, s2, s3] ∧
    runGeneration config net panels = s3 := by
  intro panels s1 s2 s3
  have hlen : panels.length = 9 := by
    show (initializePanels scenes).length = 9
    rw [initializePanels_length, h9]
  have hch := chunksBatch_nine panels hlen
  have hdrop : panels.drop 6 = (panels.drop 3).drop 3 := by
    rw [List.drop_drop]
  refine ⟨hch, ?_, ?_, ?_, ?_⟩
  · intro b hb
    rw [hch] at hb
    simp only [List.mem_cons, List.not_mem_nil, or_false] at hb
    rcases hb with h | h | h <;>
      simp [h, List.length_take, List.length_drop, hlen]
  · rw [hch]
    show panels.take 3 ++ ((panels.drop 3).take 3 ++ (panels.drop 6 ++ [])) = panels
    rw [List.append_nil, hdrop, List.take_append_drop, List.take_append_drop]
  · rw [generationTrace_eq, hch]
    rfl
  · rw [runGeneration, generationTrace_eq, hch]
    rfl

/-- Closed instance of `c1_batch_partitioning` at a concrete nine-scene run. -/
theorem c1_batch_partitioning_witness :
    demoScenes9.length = 9 ∧
    (let panels := initializePanels demoScenes9
     let s1 := applyBatch demoConfig demoNet panels (panels.take 3)
     let s2 := applyBatch demoConfig demoNet s1 ((panels.drop 3).take 3)
     let s3 := applyBatch demoConfig demoNet s2 (panels.drop 6)
     chunksBatch panels = [panels.take 3, (panels.drop 3).take 3, panels.drop 6] ∧
     (∀ b ∈ chunksBatch panels, b.length = 3) ∧
     (chunksBatch panels).flatten = panels ∧
     generationTrace demoConfig demoNet panels = [s1, s2, s3] ∧
     runGeneration demoConfig demoNet panels = s3) :=
  ⟨by decide, c1_batch_partitioning demoScenes9 demoConfig demoNet (by decide)⟩

/-- Claim C2: for a planned run with pairwise-distinct scene ids, whatever each
panel's synthesis call does, every panel ends non-loading — successes with the
image set and no error, failures with the error message set and no image — and
`handleStart` ends in `COMPLETE` unconditionally with exactly those panels. -/
theorem c2_failure_isolation (scenes : List Scene) (config : StoryConfig) (envKey : String)
    (resp : PlanResponse) (net : Option Int → ImageResponse) (st : SystemState)
    (hnd : (scenes.map (·.id)).Nodup)
    (hresp : generateStoryBreakdown config.storyText config.style config.userApiKey envKey resp
        = .ok scenes) :
    let final := runGeneration config net (initializePanels scenes)
    final.length = scenes.length ∧
    (∀ p ∈ final, p.isLoading = false) ∧
    (∀ p ∈ final, ∀ url, generatePanelImage p.sceneData config (net p.id) = .ok url →
        p.imageUrl = some url ∧ p.error = none) ∧
    (∀ p ∈ final, ∀ msg, generatePanelImage p.sceneData config (net p.id) = .error msg →
        p.imageUrl = none ∧ p.error = some msg) ∧
    (handleStart config envKey resp net st).appState = .COMPLETE ∧
    (handleStart config envKey resp net st).panels = final := by
  intro final
  have hids : ((initializePanels scenes).map (·.id)).Nodup := by
    rw [initializePanels_ids]; exact hnd
  have hfin : final = (initializePanels scenes).map (panelOutcome config net) :=
    runGeneration_eq_map _ hids
  refine ⟨?_, ?_, ?_, ?_, ?_, ?_⟩
  · rw [hfin, List.length_map, initializePanels_length]
  · intro p hp
    rw [hfin] at hp
    obtain ⟨q, _, rfl⟩ := List.mem_map.mp hp
    exact panelOutcome_isLoading q
  · intro p hp url hcall
    rw [hfin] at hp
    obtain ⟨q, _, rfl⟩ := List.mem_map.mp hp
    rw [panelOutcome_sceneData, panelOutcome_id] at hcall
    simp [panelOutcome, hcall]
  · intro p hp msg hcall
    rw [hfin] at hp
    obtain ⟨q, _, rfl⟩ := List.mem_map.mp hp
    rw [panelOutcome_sceneData, panelOutcome_id] at hcall
    simp [panelOutcome, hcall]
  · simp [handleStart, hresp]
  · simp [handleStart, hresp]

/-- Closed instance of `c2_failure_isolation`: a nine-scene run where panel 5's
call throws and the other eight succeed. -/
theorem c2_failure_isolation_witness :
    (demoScenes9.map (·.id)).Nodup ∧
    generateStoryBreakdown demoConfig.storyText demoConfig.style demoConfig.userApiKey ""
        (.parsed demoRaws9) = .ok demoScenes9 ∧
    (let final := runGeneration demoConfig demoNet (initializePanels demoScenes9)
     final.length = demoScenes9.length ∧
     (∀ p ∈ final, p.isLoading = false) ∧
     (∀ p ∈ final, ∀ url,
        generatePanelImage p.sceneData demoConfig (demoNet p.id) = .ok url →
        p.imageUrl = some url ∧ p.error = none) ∧
     (∀ p ∈ final, ∀ msg,
        generatePanelImage p.sceneData demoConfig (demoNet p.id) = .error msg →
        p.imageUrl = none ∧ p.error = some msg) ∧
     (handleStart demoConfig "" (.parsed demoRaws9) demoNet demoState).appState = .COMPLETE ∧
     (handleStart demoConfig "" (.parsed demoRaws9) demoNet demoState).panels = final) :=
  ⟨by decide, by decide,
   c2_failure_isolation demoScenes9 demoConfig "" (.parsed demoRaws9) demoNet demoState
     (by decide) (by decide)⟩

/-- A parsed response carrying a single scene object with position 5. -/
def rawLone : RawScene :=
  { id := some 5
    description := some "d"
    caption := some "c"
    mood := some "m"
    shotType := some "model shot"
    videoPrompt := some "v" }

/-- Claim C3 counterexample: a plan call whose response parses to one scene
with position 5 succeeds with exactly one scene (not nine), and that scene's
shot-type is the fixed list's entry at array index 0, not the entry at the
scene's position 5 — refuting both the nine-scene guarantee and the
position-indexed override. -/
theorem c3_counterexample :
    generateStoryBreakdown "story" "style" none "" (.parsed [rawLone])
      = .ok [{ id := some 5
               description := some "d"
               caption := some "c"
               mood := some "m"
               videoPrompt := some "v"
               shotType := "Establishing wide shot" }] ∧
    [rawLone].length ≠ 9 ∧
    shotTypesList.get? 4 = some "Action mid shot" ∧
    ("Establishing wide shot" : String) ≠ "Action mid shot" := by
  decide

/-- Claim C3 amended: a successful plan returns one Scene per element of the
parsed response — the scene count and the positions are not validated — and
each returned scene keeps the parsed fields unchanged except for its
shot-type, which is overridden to the fixed nine-element list entry at the
scene's array index (falling back to "Medium Shot" past the list); for a
response of nine scenes listed in positional order this yields the fixed
shot-type at each position 1..9. -/
theorem c3_amended (storyText style : String) (apiKeyOverride : Option String)
    (envKey : String) (raws : List RawScene) :
    ∃ scenes,
      generateStoryBreakdown storyText style apiKeyOverride envKey (.parsed raws)
        = .ok scenes ∧
      scenes.length = raws.length ∧
      ∀ i (hi : i < scenes.length) (hi' : i < raws.length),
        (scenes.get ⟨i, hi⟩).shotType = jsOrStr (shotTypesList.get? i) "Medium Shot" ∧
        (scenes.get ⟨i, hi⟩).id = (raws.get ⟨i, hi'⟩).id ∧
        (scenes.get ⟨i, hi⟩).description = (raws.get ⟨i, hi'⟩).description ∧
        (scenes.get ⟨i, hi⟩).caption = (raws.get ⟨i, hi'⟩).caption ∧
        (scenes.get ⟨i, hi⟩).mood = (raws.get ⟨i, hi'⟩).mood ∧
        (scenes.get ⟨i, hi⟩).videoPrompt = (raws.get ⟨i, hi'⟩).videoPrompt := by
  refine ⟨_, rfl, ?_, ?_⟩
  · simp [List.enum_length]
  · intro i hi hi'
    have hi2 : i < (raws.enum.map fun p => sceneFromRaw p.1 p.2).length := hi
    simp only [List.get_eq_getElem, List.getElem_map, List.getElem_enum]
    exact ⟨rfl, rfl, rfl, rfl, rfl, rfl⟩

/-- Closed instance of `c3_amended` on the nine-scene demo response, reading
off scene 4 (index 4, position 5): its shot-type is the fixed list's fifth
entry and its other fields are the parsed ones. -/
theorem c3_amended_witness :
    ∃ scenes,
      generateStoryBreakdown "story" "style" none "" (.parsed demoRaws9) = .ok scenes ∧
      scenes.length = demoRaws9.length ∧
      ∀ i (hi : i < scenes.length) (hi' : i < demoRaws9.length),
        (scenes.get ⟨i, hi⟩).shotType = jsOrStr (shotTypesList.get? i) "Medium Shot" ∧
        (scenes.get ⟨i, hi⟩).id = (demoRaws9.get ⟨i, hi'⟩).id ∧
        (scenes.get ⟨i, hi⟩).description = (demoRaws9.get ⟨i, hi'⟩).description ∧
        (scenes.get ⟨i, hi⟩).caption = (demoRaws9.get ⟨i, hi'⟩).caption ∧
        (scenes.get ⟨i, hi⟩).mood = (demoRaws9.get ⟨i, hi'⟩).mood ∧
        (scenes.get ⟨i, hi⟩).videoPrompt = (demoRaws9.get ⟨i, hi'⟩).videoPrompt :=
  c3_amended "story" "style" none "" demoRaws9

/-- The panel state of the demo run after its first batch settled — the point
at which the user clicks reset in the C4 scenario. -/
def demoOldPanels : List GeneratedPanel := initializePanels demoScenes9

/-- The two batches of the demo run still pending when reset happens. -/
def demoPendingBatches : List (List GeneratedPanel) :=
  [(demoOldPanels.drop 3).take 3, demoOldPanels.drop 6]

/-- Application state mid-generation of the demo run, just before reset. -/
def demoGeneratingState : SystemState :=
  { appState := .GENERATING
    storyConfig := some demoConfig
    panels := applyBatch demoConfig demoNet demoOldPanels (demoOldPanels.take 3)
    cache := none }

/-- Claim C4 (code bug): a reset while a run's batch loop is in flight returns
the state to `INPUT` with no panels, and the stale loop's panel writes are
indeed inert against the emptied panel list — but the stale continuation's
loop epilogue still runs `setAppState(AppState.COMPLETE)`, so the application
state observed after the reset is mutated from `INPUT` to `COMPLETE` by the
stale completion.  (A stale `generateSinglePanel` completion, by contrast, is
fully inert.) -/
theorem c4_stale_completion_mutates_state :
    (handleReset demoGeneratingState).appState = .INPUT ∧
    (handleReset demoGeneratingState).panels = [] ∧
    (staleHandleStartTail demoConfig demoNet demoPendingBatches
        (handleReset demoGeneratingState)).panels = [] ∧
    (staleHandleStartTail demoConfig demoNet demoPendingBatches
        (handleReset demoGeneratingState)).appState = .COMPLETE ∧
    AppState.COMPLETE ≠ AppState.INPUT ∧
    staleRegenerateTail (some 5) (.error "boom") (handleReset demoGeneratingState)
      = handleReset demoGeneratingState := by
  decide

/-- Run 1's character description in the C5 scenario. -/
def demoRun1Desc : String := "Character: run one girl"

/-- Claim C5 (code bug): `resetCharacterCache` exists for exactly this purpose
("call when starting a new generation") but has no caller, and `handleStart`
leaves the character cache untouched; so after run 1 caches a description, a
second run started with a different reference image still reuses run 1's
description — its own analysis response is never consulted. -/
theorem c5_cache_not_cleared :
    analyzeReferenceImage "data:image/png;base64,cmVmMQ==" "Warm Watercolor" none none
        (.success (some demoRun1Desc)) = (demoRun1Desc, some demoRun1Desc) ∧
    (handleStart demoConfig "" (.parsed demoRaws9) demoNet
        { appState := .INPUT, storyConfig := none, panels := []
          cache := some demoRun1Desc }).cache = some demoRun1Desc ∧
    analyzeReferenceImage "data:image/png;base64,cmVmMg==" "Oil Painting" none
        (some demoRun1Desc) (.success (some "Character: run two boy"))
      = (demoRun1Desc, some demoRun1Desc) ∧
    resetCharacterCache (some demoRun1Desc) = none := by
  decide

/-- A completed panel with id 1 for the C6 scenario. -/
def panelDemoC6 : GeneratedPanel :=
  { id := some 1
    imageUrl := some "data:image/png;base64,QUJD"
    isLoading := false
    error := none
    sceneData := demoScene 1 "Establishing wide shot" }

/-- A run with an active configuration whose only panel has id 1. -/
def stateC6 : SystemState :=
  { appState := .COMPLETE
    storyConfig := some demoConfig
    panels := [panelDemoC6]
    cache := none }

/-- Claim C6 counterexample: with an active configuration but no panel of id 2,
`regenerate(2)` publishes no state update and performs zero synthesis calls —
it is a silent no-op even though the run has an active configuration, refuting
the claim that missing configuration is the only no-op case and that otherwise
one synthesis call is performed. -/
theorem c6_counterexample :
    stateC6.storyConfig ≠ none ∧
    handleRegenerate (some 2) (.parts [some "QUJD"]) stateC6 = ([], 0) := by
  decide

/-- The composite effect of `generateSinglePanel`'s two `setPanels` updates on
the target panel: success sets the image, stops loading, and leaves the error
cleared; failure stops loading and records the message, keeping whatever image
the panel had before. -/
def regenTerminal (p : GeneratedPanel) (outcome : Except String String) : GeneratedPanel :=
  match outcome with
  | .ok url => { p with imageUrl := some url, isLoading := false, error := none }
  | .error msg => { p with isLoading := false, error := some msg }

theorem regenLoadingStep_length (id : Option Int) (panels : List GeneratedPanel) :
    (regenLoadingStep id panels).length = panels.length := by
  simp [regenLoadingStep]

theorem regenFinishStep_length (id : Option Int) (outcome : Except String String)
    (panels : List GeneratedPanel) :
    (regenFinishStep id outcome panels).length = panels.length := by
  cases outcome <;> simp [regenFinishStep]

theorem regenLoadingStep_get (id : Option Int) (panels : List GeneratedPanel) (k : Nat)
    (hk : k < panels.length) (hk2 : k < (regenLoadingStep id panels).length) :
    (regenLoadingStep id panels).get ⟨k, hk2⟩
      = if (panels.get ⟨k, hk⟩).id == id
        then { panels.get ⟨k, hk⟩ with isLoading := true, error := none }
        else panels.get ⟨k, hk⟩ := by
  simp [regenLoadingStep, List.get_eq_getElem, List.getElem_map]

theorem regenFinishStep_get (id : Option Int) (outcome : Except String String)
    (panels : List GeneratedPanel) (k : Nat)
    (hk : k < panels.length) (hk2 : k < (regenFinishStep id outcome panels).length) :
    (regenFinishStep id outcome panels).get ⟨k, hk2⟩
      = if (panels.get ⟨k, hk⟩).id == id
        then (match outcome with
              | .ok url => { panels.get ⟨k, hk⟩ with imageUrl := some url, isLoading := false }
              | .error msg => { panels.get ⟨k, hk⟩ with isLoading := false, error := some msg })
        else panels.get ⟨k, hk⟩ := by
  cases outcome <;> simp [regenFinishStep, List.get_eq_getElem, List.getElem_map]

/-- Claim C6 amended: `regenerate(panelId)` is a silent no-op — no published
state, no synthesis call — when the run has no active configuration OR when no
panel with that id exists; otherwise it performs exactly one synthesis call
and publishes exactly two states: first the one where panels of that id are
set loading with error cleared, then the one where they carry the call's
terminal outcome; panels of any other id are unchanged in both. -/
theorem c6_amended (panelId : Option Int) (net : ImageResponse) (st : SystemState) :
    (st.storyConfig = none → handleRegenerate panelId net st = ([], 0)) ∧
    (st.panels.find? (fun p => p.id == panelId) = none →
      handleRegenerate panelId net st = ([], 0)) ∧
    (∀ panel config,
      st.panels.find? (fun p => p.id == panelId) = some panel →
      st.storyConfig = some config →
      (let loading := regenLoadingStep panelId st.panels
       let final := regenFinishStep panelId (generatePanelImage panel.sceneData config net)
         loading
       handleRegenerate panelId net st = ([loading, final], 1) ∧
       loading.length = st.panels.length ∧
       final.length = st.panels.length ∧
       ∀ k (hk : k < st.panels.length) (hkl : k < loading.length) (hkf : k < final.length),
         (((st.panels.get ⟨k, hk⟩).id == panelId) = false →
           loading.get ⟨k, hkl⟩ = st.panels.get ⟨k, hk⟩ ∧
           final.get ⟨k, hkf⟩ = st.panels.get ⟨k, hk⟩) ∧
         (((st.panels.get ⟨k, hk⟩).id == panelId) = true →
           loading.get ⟨k, hkl⟩
             = { st.panels.get ⟨k, hk⟩ with isLoading := true, error := none } ∧
           final.get ⟨k, hkf⟩
             = regenTerminal (st.panels.get ⟨k, hk⟩)
                 (generatePanelImage panel.sceneData config net)))) := by
  refine ⟨?_, ?_, ?_⟩
  · intro h
    cases hf : st.panels.find? (fun p => p.id == panelId) <;>
      simp [handleRegenerate, hf, h]
  · intro hf
    cases hc : st.storyConfig <;> simp [handleRegenerate, hf, hc]
  · intro panel config hf hc
    refine ⟨?_, regenLoadingStep_length _ _, ?_, ?_⟩
    · simp [handleRegenerate, hf, hc, generateSinglePanel]
    · rw [regenFinishStep_length, regenLoadingStep_length]
    · intro k hk hkl hkf
      have hkl' : k < st.panels.length := hk
      constructor
      · intro hne
        have hl := regenLoadingStep_get panelId st.panels k hk hkl
        rw [hne] at hl
        simp only [Bool.false_eq_true, if_false] at hl
        have hf2 := regenFinishStep_get panelId
          (generatePanelImage panel.sceneData config net)
          (regenLoadingStep panelId st.panels) k hkl hkf
        rw [hl, hne] at hf2
        simp only [Bool.false_eq_true, if_false] at hf2
        exact ⟨hl, hf2⟩
      · intro heq
        have hl := regenLoadingStep_get panelId st.panels k hk hkl
        rw [heq] at hl
        simp only [if_true] at hl
        refine ⟨hl, ?_⟩
        revert hkf
        rcases generatePanelImage panel.sceneData config net with msg | url
        · intro hkf
          have hf2 := regenFinishStep_get panelId (Except.error msg)
            (regenLoadingStep panelId st.panels) k hkl hkf
          rw [hl] at hf2
          simp only [heq, if_true] at hf2
          rw [hf2]
          rfl
        · intro hkf
          have hf2 := regenFinishStep_get panelId (Except.ok url)
            (regenLoadingStep panelId st.panels) k hkl hkf
          rw [hl] at hf2
          simp only [heq, if_true] at hf2
          rw [hf2]
          rfl

/-- Closed instance of `c6_amended`: regenerating the single panel of
`stateC6` (id 1, active configuration) publishes exactly the loading state and
the terminal state and performs one synthesis call. -/
theorem c6_amended_witness :
    (let loading := regenLoadingStep (some 1) stateC6.panels
     let final := regenFinishStep (some 1)
       (generatePanelImage panelDemoC6.sceneData demoConfig (.parts [some "REVG"])) loading
     handleRegenerate (some 1) (.parts [some "REVG"]) stateC6 = ([loading, final], 1) ∧
     loading.length = stateC6.panels.length ∧
     final.length = stateC6.panels.length ∧
     ∀ k (hk : k < stateC6.panels.length) (hkl : k < loading.length)
         (hkf : k < final.length),
       (((stateC6.panels.get ⟨k, hk⟩).id == some 1) = false →
         loading.get ⟨k, hkl⟩ = stateC6.panels.get ⟨k, hk⟩ ∧
         final.get ⟨k, hkf⟩ = stateC6.panels.get ⟨k, hk⟩) ∧
       (((stateC6.panels.get ⟨k, hk⟩).id == some 1) = true →
         loading.get ⟨k, hkl⟩
           = { stateC6.panels.get ⟨k, hk⟩ with isLoading := true, error := none } ∧
         final.get ⟨k, hkf⟩
           = regenTerminal (stateC6.panels.get ⟨k, hk⟩)
               (generatePanelImage panelDemoC6.sceneData demoConfig (.parts [some "REVG"])))) :=
  (c6_amended (some 1) (.parts [some "REVG"]) stateC6).2.2 panelDemoC6 demoConfig
    (by decide) (by decide)

/-- A parsed scene object missing every expected field. -/
def emptyRaw : RawScene :=
  { id := none
    description := none
    caption := none
    mood := none
    shotType := none
    videoPrompt := none }

/-- Claim C7 counterexample: a response that parses to a scene object lacking
the entire expected field set does NOT make the plan fail — the code performs
no field validation, so the claim's "fails ... when the response does not
contain the expected field set" is refuted at this input. -/
theorem c7_counterexample :
    emptyRaw.id = none ∧ emptyRaw.description = none ∧ emptyRaw.caption = none ∧
    emptyRaw.mood = none ∧ emptyRaw.videoPrompt = none ∧
    planSucceeds (generateStoryBreakdown "story" "style" none "" (.parsed [emptyRaw]))
      = true := by
  decide

/-- Claim C7 amended: the plan fails exactly when the Generation Client call
threw, returned no text, or returned text that is not parseable as structured
data; parsed scene objects are not validated for the expected field set.  On
failure nothing of a scene list escapes and `handleStart` creates no panels:
the panel list is unchanged and the state returns to `INPUT`. -/
theorem c7_amended (config : StoryConfig) (envKey : String) (resp : PlanResponse)
    (net : Option Int → ImageResponse) (st : SystemState) :
    planSucceeds
        (generateStoryBreakdown config.storyText config.style config.userApiKey envKey resp)
      = planRespParses resp ∧
    (∀ e,
      generateStoryBreakdown config.storyText config.style config.userApiKey envKey resp
        = .error e →
      (handleStart config envKey resp net st).panels = st.panels ∧
      (handleStart config envKey resp net st).appState = .INPUT ∧
      (handleStart config envKey resp net st).cache = st.cache) := by
  constructor
  · cases resp <;> rfl
  · intro e he
    refine ⟨?_, ?_, ?_⟩ <;> simp [handleStart, he]

/-- Closed instance of `c7_amended` at a response with no text. -/
theorem c7_amended_witness :
    planSucceeds
        (generateStoryBreakdown demoConfig.storyText demoConfig.style demoConfig.userApiKey ""
          .noText)
      = planRespParses .noText ∧
    ((handleStart demoConfig "" .noText demoNet demoState).panels = demoState.panels ∧
     (handleStart demoConfig "" .noText demoNet demoState).appState = .INPUT ∧
     (handleStart demoConfig "" .noText demoNet demoState).cache = demoState.cache) :=
  ⟨(c7_amended demoConfig "" .noText demoNet demoState).1,
   (c7_amended demoConfig "" .noText demoNet demoState).2 "No text returned from Gemini"
     (by decide)⟩

/-- Claim C8: any configuration built by the submit path carries a truthy
reference image (submit silently refuses otherwise, before any network call),
so `generatePanelImage` on such a configuration always takes its post-guard
body — the missing-reference `ConfigurationFailure` branch is unreachable for
runs started through submit. -/
theorem c8_submit_guard (form : SubmitForm) (config : StoryConfig)
    (h : handleSubmit form = some config) :
    truthyOpt config.referenceImage = true ∧
    (∀ scene resp, generatePanelImage scene config resp = generatePanelImageBody scene resp) ∧
    (∀ f : SubmitForm, truthyOpt f.imagePreview = false → handleSubmit f = none) := by
  have href : truthyOpt config.referenceImage = true := by
    by_cases hc : (!truthyOpt form.imagePreview || jsTrim form.storyText == "") = true
    · rw [handleSubmit, if_pos hc] at h
      simp at h
    · rw [handleSubmit, if_neg hc] at h
      injection h with h2
      simp only [Bool.or_eq_true, Bool.not_eq_true'] at hc
      push_neg at hc
      rw [← h2]
      exact Bool.not_eq_false _ ▸ (by simpa using hc.1)
  refine ⟨href, ?_, ?_⟩
  · intro scene resp
    rw [generatePanelImage, if_pos href]
  · intro f hf
    rw [handleSubmit, if_pos]
    rw [hf]
    rfl

/-- A filled-in submit form with a reference image present. -/
def formW : SubmitForm :=
  { storyText := "A robot finds a flower"
    aspectRatio := "16:9"
    style := "Warm Watercolor"
    model := "gemini-2.5-flash"
    showCaptions := true
    imagePreview := some "data:image/png;base64,QUJD"
    userApiKey := "" }

/-- The configuration `handleSubmit` hands to `onStart` for `formW`. -/
def configW : StoryConfig :=
  { storyText := "A robot finds a flower"
    aspectRatio := "16:9"
    style := "Warm Watercolor"
    showCaptions := true
    referenceImage := some "data:image/png;base64,QUJD"
    userApiKey := none
    model := "gemini-2.5-flash" }

/-- Closed instance of `c8_submit_guard` at a filled-in form. -/
theorem c8_submit_guard_witness :
    handleSubmit formW = some configW ∧
    (truthyOpt configW.referenceImage = true ∧
     (∀ scene resp, generatePanelImage scene configW resp = generatePanelImageBody scene resp) ∧
     (∀ f : SubmitForm, truthyOpt f.imagePreview = false → handleSubmit f = none)) :=
  ⟨by decide, c8_submit_guard formW configW (by decide)⟩

/-- Claim C9 counterexample: in the default-instance service variant, with no
caller override and no environment credential, the resolved client key is the
empty string and the breakdown call still proceeds (here: succeeds on a
well-formed response) — no fatal configuration error is raised. -/
theorem c9_counterexample :
    envApiKeyV1 none none = "" ∧
    activeKeyV1 none (envApiKeyV1 none none) = "" ∧
    planSucceeds
        (generateStoryBreakdown "story" "style" none (envApiKeyV1 none none)
          (.parsed demoRaws9))
      = true := by
  decide

/-- Claim C9 amended: the resolution order — caller-supplied override when
truthy, else the process-wide default — holds in every variant.  The
`getAiClient` variants fail with the fatal missing-key error exactly when the
resolved key is blank; the default-instance variant instead proceeds with
whatever key was resolved (including the empty string): its breakdown call's
behaviour is independent of the credentials. -/
theorem c9_amended :
    (∀ (k e : String), k ≠ "" → activeKeyV1 (some k) e = k) ∧
    (∀ e : String, activeKeyV1 none e = e) ∧
    (∀ e : String, activeKeyV1 (some "") e = e) ∧
    (∀ (u : Option String) (e : String), jsTrim (jsOrStr u e) = "" →
      getAiClient u e = .error "Gemini API Key is missing. Please enter your key.") ∧
    (∀ (u : Option String) (e : String), jsTrim (jsOrStr u e) ≠ "" →
      getAiClient u e = .ok (jsTrim (jsOrStr u e))) ∧
    (∀ (storyText style : String) (o1 o2 : Option String) (e1 e2 : String)
        (resp : PlanResponse),
      generateStoryBreakdown storyText style o1 e1 resp
        = generateStoryBreakdown storyText style o2 e2 resp) := by
  refine ⟨?_, ?_, ?_, ?_, ?_, ?_⟩
  · intro k e hk
    simp [activeKeyV1, hk]
  · intro e
    rfl
  · intro e
    rfl
  · intro u e hu
    simp [getAiClient, hu]
  · intro u e hu
    simp [getAiClient, hu]
  · intro storyText style o1 o2 e1 e2 resp
    cases resp <;> rfl

/-- Closed instance of `c9_amended`: override wins when present, blank resolved
key is fatal in `getAiClient`, and a whitespace user key is trimmed. -/
theorem c9_amended_witness :
    activeKeyV1 (some "user-key") "env-key" = "user-key" ∧
    getAiClient none "" = .error "Gemini API Key is missing. Please enter your key." ∧
    getAiClient (some " k ") "env" = .ok (jsTrim (jsOrStr (some " k ") "env")) :=
  ⟨c9_amended.1 "user-key" "env-key" (by decide),
   c9_amended.2.2.2.1 none "" (by decide),
   c9_amended.2.2.2.2.1 (some " k ") "env" (by decide)⟩

/-- Claim C10 counterexample: an analysis call that succeeds with no text
caches the empty description; the next call does not return that cached
description unchanged — the truthiness check skips an empty cache, so the call
re-analyzes and overwrites the cache — refuting "once any analysis call has
succeeded, every subsequent call returns the cached description unchanged". -/
theorem c10_counterexample :
    analyzeReferenceImage "ref1" "Warm Watercolor" none none (.success none)
      = ("", some "") ∧
    analyzeReferenceImage "ref1" "Warm Watercolor" none (some "")
        (.success (some "Character: X"))
      = ("Character: X", some "Character: X") ∧
    ("Character: X" : String) ≠ "" := by
  decide

/-- Claim C10 amended: `analyzeReferenceImage` never throws (it is total): with
no truthy cached value, a failing call returns the fixed fallback string and
leaves the cache unchanged, and a returned call caches `response.text || ""`;
once the cache holds a NON-EMPTY description, every subsequent call returns it
unchanged regardless of the reference image, style, and response, until the
cache is reset. -/
theorem c10_amended (referenceImage style : String) (apiKeyOverride : Option String)
    (cache : CharacterCache) (resp : AnalyzeResponse) :
    (∀ m, truthyOpt cache = false → resp = .thrown m →
      analyzeReferenceImage referenceImage style apiKeyOverride cache resp
        = (fallbackDescription, cache)) ∧
    (∀ s, cache = some s → s ≠ "" →
      analyzeReferenceImage referenceImage style apiKeyOverride cache resp = (s, cache)) ∧
    (∀ t, truthyOpt cache = false → resp = .success t →
      analyzeReferenceImage referenceImage style apiKeyOverride cache resp
        = (jsOrStr t "", some (jsOrStr t ""))) := by
  refine ⟨?_, ?_, ?_⟩
  · intro m hc hr
    subst hr
    simp [analyzeReferenceImage, hc]
  · intro s hs hne
    subst hs
    simp [analyzeReferenceImage, truthyOpt, hne]
  · intro t hc hr
    subst hr
    simp [analyzeReferenceImage, hc]

/-- Closed instance of `c10_amended`: fallback on failure without caching, a
non-empty cached description returned unchanged under different arguments, and
a fresh success caching its description. -/
theorem c10_amended_witness :
    analyzeReferenceImage "refA" "sty" none none (.thrown "boom")
      = (fallbackDescription, none) ∧
    analyzeReferenceImage "refB" "sty2" none (some "Character: Y") (.success (some "other"))
      = ("Character: Y", some "Character: Y") ∧
    analyzeReferenceImage "refA" "sty" none none (.success (some "Character: Z"))
      = (jsOrStr (some "Character: Z") "", some (jsOrStr (some "Character: Z") "")) :=
  ⟨(c10_amended "refA" "sty" none none (.thrown "boom")).1 "boom" (by decide) rfl,
   (c10_amended "refB" "sty2" none (some "Character: Y") (.success (some "other"))).2.1
     "Character: Y" rfl (by decide),
   (c10_amended "refA" "sty" none none (.success (some "Character: Z"))).2.2
     (some "Character: Z") (by decide) rfl⟩

end StorySequence
